import Mathlib

/-!
Shallow embedding of the WOFLs-orchestration queue-driven ingestion core:
the SQS consumer loops (`watch-queue.py` and `Docker/Orchestrator/orchestrate.py`),
the archival sweep (`archive_datasets`), and the dead-letter recovery tools
(`dead_queue_to_live_queue.py`, `file_deadqueue.py`).

External collaborators (the SQS service, the S3 fetch, `json.loads`,
`hashlib.md5`, `PurePath.match`, `add_dataset`, `run.main`, the datacube index
search) are modelled as explicit parameters or oracle functions; everything the
repository's own code does (checksum comparison, record selection, error
aggregation, delete/retain decisions, loop structure) is transcribed directly
from the Python source.
-/

/-- A Python error-dict value: `None`, a string message, or a caught exception
object.  Mirrors the duck-typed `key → error-or-None` dictionaries in the
source.  `truthy` is Python truthiness, which `any(errors.values())` uses. -/
inductive ErrVal where
  | pyNone : ErrVal
  | str : String → ErrVal
  | exc : String → ErrVal
deriving Repr, DecidableEq

def ErrVal.truthy : ErrVal → Bool
  | .pyNone => false
  | .str s => !s.isEmpty
  | .exc _ => true

/-- One entry of the inner payload's `Records` array:
`record["s3"]["bucket"]["name"]` and `record["s3"]["object"]["key"]`. -/
structure S3Record where
  bucket : String
  key : String
deriving Repr, DecidableEq

/-- The result of the two `json.loads` decodes of a message body.
`records = none` models the inner document lacking a `Records` field. -/
structure S3Message where
  records : Option (List S3Record)
deriving Repr, DecidableEq

/-- A message as returned by `sqs.receive_message`.  `md5OfBody = none` models
a message carrying no `MD5OfBody` field; both consumer loops then read it as
`message.get("MD5OfBody", "")`. -/
structure SQSMessage where
  messageId : String
  body : String
  md5OfBody : Option String
deriving Repr, DecidableEq

/-- The shared record-selection condition
`prefix is None or len(prefix) is 0 or any([PurePath(key).match(p) for p in prefix])`
(watch-queue.py line 69, orchestrate.py line 78).  `pmatch` is the external
`PurePath.match` path-glob test. -/
def selectedByFilters (pmatch : String → String → Bool)
    (filters : Option (List String)) (key : String) : Bool :=
  match filters with
  | none => true
  | some ps => ps.isEmpty || ps.any (fun p => pmatch key p)

namespace WatchQueue

/-- Return value of `read_message` (watch-queue.py lines 55-75).  The function
returns a 2-tuple `(datasets, errors)` when `Records` is absent and a 3-tuple
`(datasets, skipped, errors)` otherwise; the two shapes are the two
constructors. -/
inductive ReadResult where
  | noRecord (datasets : List String) (errors : List (String × ErrVal))
  | ok (datasets : List String) (skipped : Nat) (errors : List (String × ErrVal))
deriving Repr, DecidableEq

/-- `read_message(message, prefix)` from watch-queue.py lines 55-75, applied to
the already-decoded body.  Selected keys are appended to `datasets`; unselected
records increment `skipped`; the `errors` dict is only written in the
missing-`Records` branch. -/
def read_message (pmatch : String → String → Bool) (body : S3Message)
    (filters : Option (List String)) : ReadResult :=
  match body.records with
  | none =>
      .noRecord [] [("no_record", .str "Message did not contain S3 records")]
  | some records =>
      let folded := records.foldl
        (fun (acc : List String × Nat) r =>
          if selectedByFilters pmatch filters r.key then
            (acc.1 ++ [r.key], acc.2)
          else
            (acc.1, acc.2 + 1))
        ([], 0)
      .ok folded.1 folded.2 []

/-- Run `run.main(key)` over the selected keys in order (watch-queue.py lines
111-113).  There is no try/except around the call, so the first raising key
aborts the rest; returns the keys actually invoked and the uncaught
exception, if any. -/
def runKeys (runMain : String → Except String Unit) :
    List String → List String × Option String
  | [] => ([], none)
  | k :: ks =>
      match runMain k with
      | .error e => ([k], some e)
      | .ok _ =>
          let rest := runKeys runMain ks
          (k :: rest.1, rest.2)

/-- Observable outcome of `processing_loop`'s handling of one received message
(watch-queue.py lines 97-136). -/
structure WQOutcome where
  validated : Bool
  decodeCalled : Bool
  regCalls : List String
  crashed : Option String
  deleted : Bool
deriving Repr, DecidableEq

/-- One iteration of the per-message body of `processing_loop`
(watch-queue.py lines 97-136).  `md5hex` is the external `hashlib.md5`
hex digest of the UTF-8 body bytes; `decode2` is the composition of the two
`json.loads` calls inside `read_message`.  The `datasets, skipped, errors =`
unpacking of a 2-tuple `ReadResult.noRecord` raises an uncaught `ValueError`;
an exception from `run.main` is likewise uncaught.  In both crash cases the
message is neither deleted nor further processed. -/
def processing_loop_step (md5hex : String → String) (decode2 : String → S3Message)
    (pmatch : String → String → Bool) (runMain : String → Except String Unit)
    (filters : Option (List String)) (m : SQSMessage) : WQOutcome :=
  let md5_of_body := m.md5OfBody.getD ""
  if md5_of_body == md5hex m.body then
    match read_message pmatch (decode2 m.body) filters with
    | .noRecord _ _ =>
        { validated := true, decodeCalled := true, regCalls := [],
          crashed := some "ValueError: not enough values to unpack",
          deleted := false }
    | .ok datasets _skipped errors =>
        let ran := runKeys runMain datasets
        match ran.2 with
        | some e =>
            { validated := true, decodeCalled := true, regCalls := ran.1,
              crashed := some e, deleted := false }
        | none =>
            if errors.any (fun kv => kv.2.truthy) then
              { validated := true, decodeCalled := true, regCalls := ran.1,
                crashed := none, deleted := false }
            else
              { validated := true, decodeCalled := true, regCalls := ran.1,
                crashed := none, deleted := true }
  else
    { validated := false, decodeCalled := false, regCalls := [],
      crashed := none, deleted := true }

end WatchQueue

namespace Orchestrate

/-- A registered dataset reference as returned by the external `add_dataset`;
`dstype` mirrors `d.type`, the product the dataset belongs to. -/
structure DSRef where
  dsid : Nat
  dstype : String
deriving Repr, DecidableEq

/-- Observable behaviour of the `try:` block body for one selected key
(orchestrate.py lines 79-94): the S3 fetch / YAML load / `add_dataset`
pipeline either raises (caught, stored as the error value) or returns
`(dataset, error)`. -/
inductive RegResult where
  | raised (e : String)
  | returned (ds : DSRef) (err : ErrVal)
deriving Repr, DecidableEq

/-- Python-dict assignment `errors[key] = v` on an association list:
overwrite an existing binding, else append. -/
def dictSet (d : List (String × ErrVal)) (k : String) (v : ErrVal) :
    List (String × ErrVal) :=
  if d.any (fun kv => kv.1 == k) then
    d.map (fun kv => if kv.1 == k then (k, v) else kv)
  else
    d ++ [(k, v)]

/-- Return value of `process_message` (orchestrate.py lines 64-98): a 2-tuple
`(datasets, errors)` when `Records` is absent, else a 3-tuple
`(datasets, skipped, errors)`. -/
inductive PMResult where
  | noRecord (datasets : List DSRef) (errors : List (String × ErrVal))
  | ok (datasets : List DSRef) (skipped : Nat) (errors : List (String × ErrVal))
deriving Repr, DecidableEq

/-- `process_message(index, message, prefix, sources_policy)` from
orchestrate.py lines 64-98, applied to the already-decoded body.  `reg` is the
external fetch-and-register pipeline, indexed by bucket and key.  For each
selected record the code sets `errors[key] = None`, runs the pipeline, and
ends with `errors[key]` holding the returned error or the caught exception;
the dataset is appended only when `errors[key] is None`. -/
def process_message (reg : String → String → RegResult)
    (pmatch : String → String → Bool) (body : S3Message)
    (filters : Option (List String)) : PMResult :=
  match body.records with
  | none =>
      .noRecord [] [("no_record", .str "Message did not contain S3 records")]
  | some records =>
      let folded := records.foldl
        (fun (acc : List DSRef × Nat × List (String × ErrVal)) r =>
          if selectedByFilters pmatch filters r.key then
            match reg r.bucket r.key with
            | .raised e => (acc.1, acc.2.1, dictSet acc.2.2 r.key (.exc e))
            | .returned ds err =>
                if err = .pyNone then
                  (acc.1 ++ [ds], acc.2.1, dictSet acc.2.2 r.key err)
                else
                  (acc.1, acc.2.1, dictSet acc.2.2 r.key err)
          else
            (acc.1, acc.2.1 + 1, acc.2.2))
        ([], 0, [])
      .ok folded.1 folded.2.1 folded.2.2

/-- The selected keys of a decoded body, in record order: exactly the keys for
which `process_message` enters the fetch-and-register `try:` block. -/
def selectedKeys (pmatch : String → String → Bool) (body : S3Message)
    (filters : Option (List String)) : List String :=
  match body.records with
  | none => []
  | some records =>
      (records.filter (fun r => selectedByFilters pmatch filters r.key)).map
        (fun r => r.key)

/-- Observable outcome of `query_queue`'s handling of one received message
(orchestrate.py lines 130-154). -/
structure QQOutcome where
  validated : Bool
  decodeCalled : Bool
  regCalls : List String
  errors : List (String × ErrVal)
  crashed : Option String
  deleted : Bool
deriving Repr, DecidableEq

/-- One iteration of the per-message body of `query_queue` (orchestrate.py
lines 130-154).  On a checksum match, `datasets, skipped, errors =
process_message(...)` unpacks the result: the 2-tuple `noRecord` shape raises
an uncaught `ValueError` before any deletion.  Otherwise the code only logs in
both the no-error and some-error branches, and `delete_message` on line 154
runs unconditionally — also when `errors` holds truthy values, despite the
`# Do not delete message` comment on line 149. -/
def query_queue_step (md5hex : String → String) (decode2 : String → S3Message)
    (pmatch : String → String → Bool) (reg : String → String → RegResult)
    (filters : Option (List String)) (m : SQSMessage) : QQOutcome :=
  let md5_of_body := m.md5OfBody.getD ""
  if md5_of_body == md5hex m.body then
    match process_message reg pmatch (decode2 m.body) filters with
    | .noRecord _ _ =>
        { validated := true, decodeCalled := true, regCalls := [],
          errors := [],
          crashed := some "ValueError: not enough values to unpack",
          deleted := false }
    | .ok _datasets _skipped errors =>
        { validated := true, decodeCalled := true,
          regCalls := selectedKeys pmatch (decode2 m.body) filters,
          errors := errors, crashed := none, deleted := true }
  else
    { validated := false, decodeCalled := false, regCalls := [], errors := [],
      crashed := none, deleted := true }

end Orchestrate

namespace Archive

/-- A dataset record as held by the datacube index.  `creation` is the
dataset's creation time in seconds since `date(1970, 1, 1)`; `sources` are the
ids of its immediate lineage-source datasets, as returned by
`index.datasets.get(d.id, include_sources=True)`. -/
structure DCDataset where
  dsid : Nat
  product : String
  creation : Int
  sources : List Nat
deriving Repr, DecidableEq

def secPerDay : Int := 86400

/-- `index.datasets.search_eager(**Query(product=product,
time=[date(1970, 1, 1), past]).search_terms)` with
`past = datetime.now() - timedelta(days=days)` (orchestrate.py lines 53-55):
all datasets of `product` whose creation time lies in the inclusive range from
the epoch up to `now - days`. -/
def search_eager (index : List DCDataset) (product : String) (now : Int)
    (days : Int) : List DCDataset :=
  index.filter (fun d =>
    d.product == product && decide (0 ≤ d.creation)
      && decide (d.creation ≤ now - days * secPerDay))

/-- The `get_ids` generator inside `archive_datasets` (orchestrate.py lines
45-50): for each queried dataset, re-fetch it from the index with sources
included, yield each immediate source id, then the dataset's own id. -/
def get_ids (index : List DCDataset) (datasets : List DCDataset) : List Nat :=
  datasets.flatMap (fun d =>
    (match index.find? (fun e => e.dsid == d.dsid) with
     | some ds => ds.sources
     | none => []) ++ [d.dsid])

/-- Result of one `archive_datasets` pass: the ids handed to
`index.datasets.archive`, if the call was made, and whether
`add_product_range` was requested. -/
structure ArchiveResult where
  archived : Option (List Nat)
  rangeRecomputed : Bool
deriving Repr, DecidableEq

/-- `archive_datasets(product, days, dc)` from orchestrate.py lines 44-61:
query the index for the product's datasets older than the retention window;
when the result is non-empty, archive `get_ids` of the result and recompute
the product range. -/
def archive_datasets (index : List DCDataset) (product : String) (days : Int)
    (now : Int) : ArchiveResult :=
  let datasets := search_eager index product now days
  if datasets.length > 0 then
    { archived := some (get_ids index datasets), rangeRecomputed := true }
  else
    { archived := none, rangeRecomputed := false }

end Archive

namespace DeadToLive

/-- State of the queue world seen by `dead_queue_to_live_queue.py`: the
dead-letter queue's receivable messages, the live queue's contents, in
arrival order.  The `ApproximateNumberOfMessages` attribute read by
`count_messages` is environment-controlled (it may lag the true count), so it
is supplied separately as an oracle of successive readings. -/
structure DLState where
  dlVisible : List String
  live : List String
deriving Repr, DecidableEq

/-- `dead2living()` (dead_queue_to_live_queue.py lines 29-41): receive at most
one message from the dead-letter queue; if none, return with no effect;
otherwise send its body verbatim to the live queue and delete it from the
dead-letter queue. -/
def dead2living (s : DLState) : DLState :=
  match s.dlVisible with
  | [] => s
  | m :: rest => { dlVisible := rest, live := s.live ++ [m] }

/-- The `__main__` loop of dead_queue_to_live_queue.py (lines 48-53):
`n = count; while n > 0: dead2living(); n = count`.  `counts k` is the value
the `ApproximateNumberOfMessages` attribute shows at the k-th check.  Runs on
fuel; returns the final state and the number of `dead2living` calls made. -/
def drainLoop (counts : Nat → Nat) : Nat → Nat → DLState → DLState × Nat
  | 0, _, s => (s, 0)
  | fuel + 1, k, s =>
      if counts k > 0 then
        let next := drainLoop counts fuel (k + 1) (dead2living s)
        (next.1, next.2 + 1)
      else
        (s, 0)

end DeadToLive

namespace DeadToFile

/-- State of the world seen by `file_deadqueue.py`: the dead-letter queue's
currently visible messages, the ones received during this run and hence
invisible until their visibility timeout lapses (never deleted), the output
file's contents, and the live queue. -/
structure DFState where
  dlVisible : List String
  dlInflight : List String
  file : String
  live : List String
deriving Repr, DecidableEq

/-- `getmessage()` (file_deadqueue.py lines 32-45): receive at most one
message from the dead-letter queue and return its body.  The send to the live
queue and the delete are commented out in the source, so the message merely
becomes invisible for the visibility timeout. -/
def getmessage (s : DFState) : Option String × DFState :=
  match s.dlVisible with
  | [] => (none, s)
  | m :: rest =>
      (some m, { s with dlVisible := rest, dlInflight := s.dlInflight ++ [m] })

/-- The `while` loop of `dead2file` (file_deadqueue.py lines 57-62):
while the approximate count is positive, receive one message, break if none,
append the body plus a newline to the file, re-check the count. -/
def dead2fileLoop (counts : Nat → Nat) : Nat → Nat → DFState → DFState
  | 0, _, s => s
  | fuel + 1, k, s =>
      if counts k > 0 then
        match getmessage s with
        | (none, s1) => s1
        | (some m, s1) =>
            dead2fileLoop counts fuel (k + 1) { s1 with file := s1.file ++ m ++ "\n" }
      else
        s

/-- `dead2file(filename)` (file_deadqueue.py lines 54-64): `open(filename,
"w+")` truncates the file, then the drain loop runs. -/
def dead2file (counts : Nat → Nat) (fuel : Nat) (s : DFState) : DFState :=
  dead2fileLoop counts fuel 0 { s with file := "" }

end DeadToFile

/-! ## Claim theorems -/

/-- C8: the Event Decoder is idempotent and deterministic: for every message
body and filter set, invoking `read_message` twice on the same inputs yields
the same selected-record list and the same skipped count both times.  The
embedded decoder is a pure function of its inputs, so the two invocations are
definitionally equal. -/
theorem c8_decoder_deterministic (pmatch : String → String → Bool)
    (body : S3Message) (filters : Option (List String)) :
    WatchQueue.read_message pmatch body filters
      = WatchQueue.read_message pmatch body filters := rfl

/-- C3: for every received message whose locally computed MD5 of the body
differs from the queue-supplied claimed checksum, both consumer loops delete
the message and make no registration call: the decoder and registrar are never
invoked for that message. -/
theorem c3_checksum_mismatch_deleted_no_processing
    (md5hex : String → String) (decode2 : String → S3Message)
    (pmatch : String → String → Bool) (runMain : String → Except String Unit)
    (reg : String → String → Orchestrate.RegResult)
    (filters : Option (List String)) (m : SQSMessage)
    (h : md5hex m.body ≠ m.md5OfBody.getD "") :
    WatchQueue.processing_loop_step md5hex decode2 pmatch runMain filters m
      = { validated := false, decodeCalled := false, regCalls := [],
          crashed := none, deleted := true }
    ∧ Orchestrate.query_queue_step md5hex decode2 pmatch reg filters m
      = { validated := false, decodeCalled := false, regCalls := [],
          errors := [], crashed := none, deleted := true } := by
  have hne : (m.md5OfBody.getD "" == md5hex m.body) = false := by
    simp only [beq_eq_false_iff_ne, ne_eq]
    exact fun hh => h hh.symm
  constructor
  · simp [WatchQueue.processing_loop_step, hne]
  · simp [Orchestrate.query_queue_step, hne]

/-- Witness for C3 at a concrete mismatching message. -/
theorem c3_checksum_mismatch_witness :
    WatchQueue.processing_loop_step (fun _ => "aa") (fun _ => ⟨none⟩)
        (fun _ _ => false) (fun _ => .ok ()) none ⟨"id1", "b", some "zz"⟩
      = { validated := false, decodeCalled := false, regCalls := [],
          crashed := none, deleted := true }
    ∧ Orchestrate.query_queue_step (fun _ => "aa") (fun _ => ⟨none⟩)
        (fun _ _ => false) (fun _ _ => .raised "e") none ⟨"id1", "b", some "zz"⟩
      = { validated := false, decodeCalled := false, regCalls := [],
          errors := [], crashed := none, deleted := true } :=
  c3_checksum_mismatch_deleted_no_processing (fun _ => "aa") (fun _ => ⟨none⟩)
    (fun _ _ => false) (fun _ => .ok ()) (fun _ _ => .raised "e") none
    ⟨"id1", "b", some "zz"⟩ (by decide)

/-- C10: a received message carrying no `MD5OfBody` field is treated as a
checksum mismatch: the claimed checksum defaults to the empty string, which
cannot equal the 32-character computed hex digest, so both loops delete the
message without any decode or registration call. -/
theorem c10_missing_checksum_field_deleted
    (md5hex : String → String) (decode2 : String → S3Message)
    (pmatch : String → String → Bool) (runMain : String → Except String Unit)
    (reg : String → String → Orchestrate.RegResult)
    (filters : Option (List String)) (m : SQSMessage)
    (hnone : m.md5OfBody = none) (hlen : (md5hex m.body).length = 32) :
    m.md5OfBody.getD "" = ""
    ∧ WatchQueue.processing_loop_step md5hex decode2 pmatch runMain filters m
      = { validated := false, decodeCalled := false, regCalls := [],
          crashed := none, deleted := true }
    ∧ Orchestrate.query_queue_step md5hex decode2 pmatch reg filters m
      = { validated := false, decodeCalled := false, regCalls := [],
          errors := [], crashed := none, deleted := true } := by
  have hd : m.md5OfBody.getD "" = "" := by rw [hnone]; rfl
  have hne : md5hex m.body ≠ m.md5OfBody.getD "" := by
    rw [hd]
    intro hh
    have : (md5hex m.body).length = 0 := by rw [hh]; rfl
    omega
  have hbeq : (m.md5OfBody.getD "" == md5hex m.body) = false := by
    simp only [beq_eq_false_iff_ne, ne_eq]
    exact fun hh => hne hh.symm
  refine ⟨hd, ?_, ?_⟩
  · simp [WatchQueue.processing_loop_step, hbeq]
  · simp [Orchestrate.query_queue_step, hbeq]

/-- Witness for C10 at a concrete message lacking the checksum field, with an
oracle digest of the standard 32 hex characters. -/
theorem c10_missing_checksum_field_witness :
    ((none : Option String).getD "" = ""
      ∧ WatchQueue.processing_loop_step
          (fun _ => "d41d8cd98f00b204e9800998ecf8427e") (fun _ => ⟨none⟩)
          (fun _ _ => false) (fun _ => .ok ()) none ⟨"id2", "b", none⟩
        = { validated := false, decodeCalled := false, regCalls := [],
            crashed := none, deleted := true }
      ∧ Orchestrate.query_queue_step
          (fun _ => "d41d8cd98f00b204e9800998ecf8427e") (fun _ => ⟨none⟩)
          (fun _ _ => false) (fun _ _ => .raised "e") none ⟨"id2", "b", none⟩
        = { validated := false, decodeCalled := false, regCalls := [],
            errors := [], crashed := none, deleted := true }) :=
  c10_missing_checksum_field_deleted
    (fun _ => "d41d8cd98f00b204e9800998ecf8427e") (fun _ => ⟨none⟩)
    (fun _ _ => false) (fun _ => .ok ()) (fun _ _ => .raised "e") none
    ⟨"id2", "b", none⟩ rfl (by decide)

/-- C2: for every checksum-valid message whose body, after the two JSON
decodes, lacks a `Records` field, the decoder reports the decode error
`no_record` with an empty selected-record list, no registration call is made,
and neither consumer loop deletes the message, so it will be redelivered.  (In
both loops the retention happens because the caller's three-value unpacking of
the decoder's two-value return raises an uncaught `ValueError` before any
delete.) -/
theorem c2_no_record_retained
    (md5hex : String → String) (decode2 : String → S3Message)
    (pmatch : String → String → Bool) (runMain : String → Except String Unit)
    (reg : String → String → Orchestrate.RegResult)
    (filters : Option (List String)) (m : SQSMessage)
    (hsum : m.md5OfBody.getD "" = md5hex m.body)
    (hrec : (decode2 m.body).records = none) :
    WatchQueue.read_message pmatch (decode2 m.body) filters
      = .noRecord [] [("no_record", .str "Message did not contain S3 records")]
    ∧ (WatchQueue.processing_loop_step md5hex decode2 pmatch runMain filters m).regCalls = []
    ∧ (WatchQueue.processing_loop_step md5hex decode2 pmatch runMain filters m).deleted = false
    ∧ (Orchestrate.query_queue_step md5hex decode2 pmatch reg filters m).regCalls = []
    ∧ (Orchestrate.query_queue_step md5hex decode2 pmatch reg filters m).deleted = false := by
  have hbeq : (m.md5OfBody.getD "" == md5hex m.body) = true := by
    simp [hsum]
  have hread : WatchQueue.read_message pmatch (decode2 m.body) filters
      = .noRecord [] [("no_record", .str "Message did not contain S3 records")] := by
    unfold WatchQueue.read_message
    rw [hrec]
  have hpm : Orchestrate.process_message reg pmatch (decode2 m.body) filters
      = .noRecord [] [("no_record", .str "Message did not contain S3 records")] := by
    unfold Orchestrate.process_message
    rw [hrec]
  refine ⟨hread, ?_, ?_, ?_, ?_⟩ <;>
    simp [WatchQueue.processing_loop_step, Orchestrate.query_queue_step,
      hbeq, hread, hpm]

/-- Witness for C2: the scenario body `{"Message": "{}"}` — the inner decode
yields a document with no `Records` field. -/
theorem c2_no_record_witness :
    WatchQueue.read_message (fun _ _ => true)
        ((fun _ : String => S3Message.mk none) "\x7b\"Message\": \"\x7b\x7d\"\x7d") none
      = .noRecord [] [("no_record", .str "Message did not contain S3 records")]
    ∧ (WatchQueue.processing_loop_step (fun _ => "h") (fun _ => S3Message.mk none)
        (fun _ _ => true) (fun _ => .ok ()) none
        ⟨"id3", "\x7b\"Message\": \"\x7b\x7d\"\x7d", some "h"⟩).regCalls = []
    ∧ (WatchQueue.processing_loop_step (fun _ => "h") (fun _ => S3Message.mk none)
        (fun _ _ => true) (fun _ => .ok ()) none
        ⟨"id3", "\x7b\"Message\": \"\x7b\x7d\"\x7d", some "h"⟩).deleted = false
    ∧ (Orchestrate.query_queue_step (fun _ => "h") (fun _ => S3Message.mk none)
        (fun _ _ => true) (fun _ _ => .raised "e") none
        ⟨"id3", "\x7b\"Message\": \"\x7b\x7d\"\x7d", some "h"⟩).regCalls = []
    ∧ (Orchestrate.query_queue_step (fun _ => "h") (fun _ => S3Message.mk none)
        (fun _ _ => true) (fun _ _ => .raised "e") none
        ⟨"id3", "\x7b\"Message\": \"\x7b\x7d\"\x7d", some "h"⟩).deleted = false :=
  c2_no_record_retained (fun _ => "h") (fun _ => S3Message.mk none)
    (fun _ _ => true) (fun _ => .ok ()) (fun _ _ => .raised "e") none
    ⟨"id3", "\x7b\"Message\": \"\x7b\x7d\"\x7d", some "h"⟩ rfl rfl

/-- C1 (counterexample to the claim on orchestrate.py's consumer loop): a
checksum-valid message with one selected record whose registration raises
produces a truthy per-key error, yet `query_queue` still deletes the message:
`delete_message` on line 154 is outside the success/failure conditional and
runs unconditionally, contradicting the `# Do not delete message` comment on
line 149 (watch-queue.py's loop, by contrast, only deletes in the no-error
branch). -/
theorem c1_query_queue_deletes_despite_error :
    (Orchestrate.query_queue_step (fun _ => "h") (fun _ => ⟨some [⟨"b", "k"⟩]⟩)
        (fun _ _ => true) (fun _ _ => .raised "boom") none
        ⟨"id4", "body", some "h"⟩).errors
      = [("k", .exc "boom")]
    ∧ ((Orchestrate.query_queue_step (fun _ => "h") (fun _ => ⟨some [⟨"b", "k"⟩]⟩)
        (fun _ _ => true) (fun _ _ => .raised "boom") none
        ⟨"id4", "body", some "h"⟩).errors.any (fun kv => kv.2.truthy)) = true
    ∧ (Orchestrate.query_queue_step (fun _ => "h") (fun _ => ⟨some [⟨"b", "k"⟩]⟩)
        (fun _ _ => true) (fun _ _ => .raised "boom") none
        ⟨"id4", "body", some "h"⟩).deleted = true := by
  refine ⟨?_, ?_, ?_⟩ <;> rfl

/-- The record fold inside `read_message`, characterised: the accumulated
datasets are the keys of the selected records in order, and the skip counter
advances by the number of unselected records. -/
theorem readFold_spec (pmatch : String → String → Bool)
    (filters : Option (List String)) (records : List S3Record)
    (acc : List String) (n : Nat) :
    records.foldl
      (fun (acc : List String × Nat) r =>
        if selectedByFilters pmatch filters r.key then
          (acc.1 ++ [r.key], acc.2)
        else
          (acc.1, acc.2 + 1))
      (acc, n)
      = (acc ++ (records.filter
            (fun r => selectedByFilters pmatch filters r.key)).map
            (fun r => r.key),
         n + (records.filter
            (fun r => !selectedByFilters pmatch filters r.key)).length) := by
  induction records generalizing acc n with
  | nil => simp
  | cons r rs ih =>
      by_cases h : selectedByFilters pmatch filters r.key
      · simp [h, ih]
      · simp [h, ih, Nat.add_assoc, Nat.add_comm, Nat.add_left_comm]

/-- `read_message` on a body whose `Records` field is present returns the
selected keys, the unselected count, and an empty error dict. -/
theorem read_message_ok (pmatch : String → String → Bool)
    (filters : Option (List String)) (records : List S3Record) :
    WatchQueue.read_message pmatch ⟨some records⟩ filters
      = .ok ((records.filter
            (fun r => selectedByFilters pmatch filters r.key)).map
            (fun r => r.key))
          ((records.filter
            (fun r => !selectedByFilters pmatch filters r.key)).length)
          [] := by
  unfold WatchQueue.read_message
  simp [readFold_spec]

/-- C7: a decoded record with key `k` is selected exactly when the filter set
is absent or empty or `k` path-glob-matches some filter; otherwise it is
excluded and counted as skipped, and skipped records never contribute errors —
an all-skipped batch has zero errors and its message is still deleted. -/
theorem c7_filter_selection
    (md5hex : String → String) (decode2 : String → S3Message)
    (pmatch : String → String → Bool) (runMain : String → Except String Unit)
    (filters : Option (List String)) (records : List S3Record) (m : SQSMessage)
    (hdec : decode2 m.body = ⟨some records⟩)
    (hsum : m.md5OfBody.getD "" = md5hex m.body) :
    (∀ k, selectedByFilters pmatch filters k = true ↔
        (filters.getD [] = [] ∨ ∃ p ∈ filters.getD [], pmatch k p = true))
    ∧ WatchQueue.read_message pmatch (decode2 m.body) filters
        = .ok ((records.filter
              (fun r => selectedByFilters pmatch filters r.key)).map
              (fun r => r.key))
            ((records.filter
              (fun r => !selectedByFilters pmatch filters r.key)).length)
            []
    ∧ ((∀ r ∈ records, selectedByFilters pmatch filters r.key = false) →
        WatchQueue.read_message pmatch (decode2 m.body) filters
            = .ok [] records.length []
        ∧ (WatchQueue.processing_loop_step md5hex decode2 pmatch runMain filters m).regCalls = []
        ∧ (WatchQueue.processing_loop_step md5hex decode2 pmatch runMain filters m).deleted = true) := by
  have hbeq : (m.md5OfBody.getD "" == md5hex m.body) = true := by simp [hsum]
  refine ⟨?_, ?_, ?_⟩
  · intro k
    cases filters with
    | none => simp [selectedByFilters]
    | some ps =>
        simp [selectedByFilters, List.isEmpty_iff, List.any_eq_true]
  · rw [hdec]
    exact read_message_ok pmatch filters records
  · intro hall
    have hsel : records.filter (fun r => selectedByFilters pmatch filters r.key) = [] := by
      rw [List.filter_eq_nil_iff]
      intro r hr
      simp [hall r hr]
    have hskip : records.filter (fun r => !selectedByFilters pmatch filters r.key) = records := by
      rw [List.filter_eq_self]
      intro r hr
      simp [hall r hr]
    have hread : WatchQueue.read_message pmatch (decode2 m.body) filters
        = .ok [] records.length [] := by
      rw [hdec, read_message_ok, hsel, hskip]
      rfl
    refine ⟨hread, ?_, ?_⟩ <;>
      simp [WatchQueue.processing_loop_step, hbeq, hread, WatchQueue.runKeys]

/-- Witness for C7: the scenario with prefix filter `["z/*"]` and the single
key `x/y.yaml` (which the path-glob oracle rejects): nothing is selected,
skipped = 1, no errors, and the message is still deleted. -/
theorem c7_filter_selection_witness :
    WatchQueue.read_message (fun _ _ => false)
        ((fun _ : String => S3Message.mk (some [⟨"b", "x/y.yaml"⟩])) "body")
        (some ["z/*"])
      = .ok [] [S3Record.mk "b" "x/y.yaml"].length []
    ∧ (WatchQueue.processing_loop_step (fun _ => "h")
        (fun _ => S3Message.mk (some [⟨"b", "x/y.yaml"⟩])) (fun _ _ => false)
        (fun _ => .ok ()) (some ["z/*"]) ⟨"id5", "body", some "h"⟩).regCalls = []
    ∧ (WatchQueue.processing_loop_step (fun _ => "h")
        (fun _ => S3Message.mk (some [⟨"b", "x/y.yaml"⟩])) (fun _ _ => false)
        (fun _ => .ok ()) (some ["z/*"]) ⟨"id5", "body", some "h"⟩).deleted = true :=
  (c7_filter_selection (fun _ => "h")
      (fun _ => S3Message.mk (some [⟨"b", "x/y.yaml"⟩])) (fun _ _ => false)
      (fun _ => .ok ()) (some ["z/*"]) [⟨"b", "x/y.yaml"⟩]
      ⟨"id5", "body", some "h"⟩ rfl rfl).2.2 (by decide)

/-- In a list of datasets with pairwise distinct ids, re-fetching a member by
its id (`index.datasets.get(d.id, include_sources=True)`) returns that
member. -/
theorem find_dataset_self (index : List Archive.DCDataset)
    (hnodup : (index.map (fun d => d.dsid)).Nodup)
    (d : Archive.DCDataset) (hd : d ∈ index) :
    index.find? (fun e => e.dsid == d.dsid) = some d := by
  induction index with
  | nil => cases hd
  | cons a t ih =>
      rw [List.map_cons, List.nodup_cons] at hnodup
      rcases List.mem_cons.mp hd with rfl | hdt
      · simp
      · have hne : (a.dsid == d.dsid) = false := by
          simp only [beq_eq_false_iff_ne, ne_eq]
          intro hh
          exact hnodup.1 (hh ▸ List.mem_map_of_mem (fun x => x.dsid) hdt)
        rw [List.find?_cons, hne]
        exact ih hnodup.2 hdt

/-- Membership in the id stream produced by the `get_ids` generator: exactly
the queried datasets' own ids and their immediate lineage-source ids. -/
theorem get_ids_mem_iff (index Q : List Archive.DCDataset)
    (hsub : ∀ d ∈ Q, d ∈ index)
    (hnodup : (index.map (fun d => d.dsid)).Nodup) (x : Nat) :
    x ∈ Archive.get_ids index Q ↔ ∃ d ∈ Q, x = d.dsid ∨ x ∈ d.sources := by
  unfold Archive.get_ids
  rw [List.mem_flatMap]
  constructor
  · rintro ⟨d, hdQ, hx⟩
    rw [find_dataset_self index hnodup d (hsub d hdQ)] at hx
    rcases List.mem_append.mp hx with hs | hone
    · exact ⟨d, hdQ, Or.inr hs⟩
    · exact ⟨d, hdQ, Or.inl (List.mem_singleton.mp hone)⟩
  · rintro ⟨d, hdQ, hx⟩
    refine ⟨d, hdQ, ?_⟩
    rw [find_dataset_self index hnodup d (hsub d hdQ)]
    rcases hx with rfl | hs
    · exact List.mem_append.mpr (Or.inr (List.mem_singleton.mpr rfl))
    · exact List.mem_append.mpr (Or.inl hs)

/-- C5: on an archival pass with a non-empty query result, the set of dataset
ids passed to `index.datasets.archive` is exactly the queried datasets' ids
together with their immediate (one-level) lineage-source ids; a dataset that
merely depends on a queried dataset (without being queried or being one of
its sources) is never included. -/
theorem c5_archive_ids_exact (index : List Archive.DCDataset)
    (product : String) (days now : Int)
    (hne : Archive.search_eager index product now days ≠ [])
    (hnodup : (index.map (fun d => d.dsid)).Nodup) :
    ∃ ids, (Archive.archive_datasets index product days now).archived = some ids
      ∧ (∀ x, x ∈ ids ↔
            ∃ d ∈ Archive.search_eager index product now days,
              x = d.dsid ∨ x ∈ d.sources)
      ∧ ∀ e ∈ index,
          e.dsid ∉ (Archive.search_eager index product now days).map
            (fun d => d.dsid) →
          (∀ d ∈ Archive.search_eager index product now days,
            e.dsid ∉ d.sources) →
          e.dsid ∉ ids := by
  have hsub : ∀ d ∈ Archive.search_eager index product now days, d ∈ index :=
    fun d hd => List.mem_of_mem_filter hd
  have hlen : 0 < (Archive.search_eager index product now days).length :=
    List.length_pos.mpr hne
  refine ⟨Archive.get_ids index (Archive.search_eager index product now days),
    ?_, ?_, ?_⟩
  · unfold Archive.archive_datasets
    simp [hlen]
  · intro x
    exact get_ids_mem_iff index _ hsub hnodup x
  · intro e _ hnotq hnots hmem
    rcases (get_ids_mem_iff index _ hsub hnodup e.dsid).mp hmem with ⟨d, hdQ, hcase⟩
    rcases hcase with heq | hsrc
    · exact hnotq (heq ▸ List.mem_map_of_mem (fun d => d.dsid) hdQ)
    · exact hnots d hdQ hsrc

/-- Witness for C5: a two-dataset index where the queried product's dataset
has one lineage source; the archived id set is exactly the queried id and the
source id. -/
theorem c5_archive_ids_witness :
    ∃ ids, (Archive.archive_datasets
        [⟨1, "p", 0, [2]⟩, ⟨2, "q", 0, []⟩] "p" 0 86400).archived = some ids
      ∧ (∀ x, x ∈ ids ↔
            ∃ d ∈ Archive.search_eager
              [⟨1, "p", 0, [2]⟩, ⟨2, "q", 0, []⟩] "p" 86400 0,
              x = d.dsid ∨ x ∈ d.sources)
      ∧ ∀ e ∈ [(⟨1, "p", 0, [2]⟩ : Archive.DCDataset), ⟨2, "q", 0, []⟩],
          e.dsid ∉ (Archive.search_eager
            [⟨1, "p", 0, [2]⟩, ⟨2, "q", 0, []⟩] "p" 86400 0).map
            (fun d => d.dsid) →
          (∀ d ∈ Archive.search_eager
            [⟨1, "p", 0, [2]⟩, ⟨2, "q", 0, []⟩] "p" 86400 0,
            e.dsid ∉ d.sources) →
          e.dsid ∉ ids :=
  c5_archive_ids_exact [⟨1, "p", 0, [2]⟩, ⟨2, "q", 0, []⟩] "p" 0 86400
    (by decide) (by decide)

/-- C6 (counterexample): the query range `[date(1970, 1, 1), now - days]` is
inclusive at its upper end, so a dataset created exactly `days` days before
`now` is selected — and archived — although its creation time is not strictly
older than the cutoff.  Here `now` is day 100, retention is 30 days, and the
dataset was created exactly on day 70. -/
theorem c6_boundary_not_strictly_older :
    (Archive.search_eager [⟨1, "p", 70 * 86400, []⟩] "p" (100 * 86400) 30).map
        (fun d => d.dsid) = [1]
    ∧ (Archive.archive_datasets [⟨1, "p", 70 * 86400, []⟩] "p" 30
        (100 * 86400)).archived = some [1]
    ∧ ¬ ((70 * 86400 : Int) < 100 * 86400 - 30 * Archive.secPerDay) := by
  refine ⟨rfl, rfl, by decide⟩

/-- C6 (amended): a dataset is eligible for the archival pass exactly when it
belongs to the product and its creation time lies in the inclusive range from
the epoch to `now - retentionDays` (at or before the cutoff, not strictly
before it).  In the 10-day/40-day scenario with a 30-day retention, only the
40-day-old dataset and its lineage source are archived; the 10-day-old one is
untouched. -/
theorem c6_eligibility_amended (index : List Archive.DCDataset)
    (product : String) (now days : Int) (d : Archive.DCDataset) :
    (d ∈ Archive.search_eager index product now days ↔
      d ∈ index ∧ d.product = product ∧ 0 ≤ d.creation
        ∧ d.creation ≤ now - days * Archive.secPerDay)
    ∧ (Archive.archive_datasets
        [⟨1, "q", 90 * 86400, []⟩, ⟨2, "q", 60 * 86400, [7]⟩] "q" 30
        (100 * 86400)).archived = some [7, 2] := by
  constructor
  · unfold Archive.search_eager
    rw [List.mem_filter]
    simp [and_assoc]
  · rfl

/-- C4 (counterexample): in `dead_queue_to_live_queue.py` an empty receive
does not terminate the drain loop.  With the dead-letter queue actually empty
but the approximate count stuck at 1, the first `dead2living` call's receive
returns no message and is a no-op — yet the loop keeps calling `dead2living`
until external intervention (here: five calls under fuel 5, not the single
call the claimed termination condition would allow). -/
theorem c4_empty_receive_does_not_terminate :
    DeadToLive.dead2living ⟨[], []⟩ = ⟨[], []⟩
    ∧ (DeadToLive.drainLoop (fun _ => 1) 5 0 ⟨[], []⟩).2 = 5
    ∧ (DeadToLive.drainLoop (fun _ => 1) 5 0 ⟨[], []⟩).2 ≠ 1 := by
  refine ⟨rfl, rfl, by decide⟩

/-- C4 (amended): the drain-to-live loop runs while the dead-letter queue's
approximate count is non-zero; an iteration that receives a message sends its
body verbatim to the live queue and deletes it from the dead-letter queue; an
iteration whose receive returns nothing leaves both queues unchanged; and the
loop terminates only at a zero count reading — a non-zero count always drives
another `dead2living` call, even directly after an empty receive. -/
theorem c4_drain_to_live_amended (counts : Nat → Nat) (fuel k : Nat)
    (s : DeadToLive.DLState) :
    (∀ m rest, s.dlVisible = m :: rest →
        DeadToLive.dead2living s = ⟨rest, s.live ++ [m]⟩)
    ∧ (s.dlVisible = [] → DeadToLive.dead2living s = s)
    ∧ (counts k = 0 → DeadToLive.drainLoop counts fuel k s = (s, 0))
    ∧ (counts k ≠ 0 →
        (DeadToLive.drainLoop counts (fuel + 1) k s).2
          = (DeadToLive.drainLoop counts fuel (k + 1)
              (DeadToLive.dead2living s)).2 + 1) := by
  refine ⟨?_, ?_, ?_, ?_⟩
  · intro m rest hv
    unfold DeadToLive.dead2living
    rw [hv]
  · intro hv
    unfold DeadToLive.dead2living
    rw [hv]
  · intro hz
    cases fuel with
    | zero => rfl
    | succ f =>
        unfold DeadToLive.drainLoop
        rw [hz]
        simp
  · intro hnz
    have hpos : 0 < counts k := Nat.pos_of_ne_zero hnz
    conv_lhs => rw [DeadToLive.drainLoop]
    simp [hpos]

/-- Witness for C4's amended statement at concrete states: a one-message
queue forwards the body and deletes it; an empty queue makes `dead2living` a
no-op; a zero count stops the loop at once; a non-zero count runs one more
iteration. -/
theorem c4_drain_to_live_witness :
    DeadToLive.dead2living ⟨["a"], ["z"]⟩ = ⟨[], ["z", "a"]⟩
    ∧ DeadToLive.dead2living ⟨[], ["z"]⟩ = ⟨[], ["z"]⟩
    ∧ DeadToLive.drainLoop (fun _ => 0) 3 0 ⟨["a"], []⟩ = (⟨["a"], []⟩, 0)
    ∧ (DeadToLive.drainLoop (fun _ => 1) 3 0 ⟨["a"], []⟩).2
        = (DeadToLive.drainLoop (fun _ => 1) 2 1
            (DeadToLive.dead2living ⟨["a"], []⟩)).2 + 1 :=
  ⟨(c4_drain_to_live_amended (fun _ => 0) 3 0 ⟨["a"], ["z"]⟩).1 "a" [] rfl,
   (c4_drain_to_live_amended (fun _ => 0) 3 0 ⟨[], ["z"]⟩).2.1 rfl,
   (c4_drain_to_live_amended (fun _ => 0) 3 0 ⟨["a"], []⟩).2.2.1 rfl,
   (c4_drain_to_live_amended (fun _ => 1) 2 0 ⟨["a"], []⟩).2.2.2 (by decide)⟩

/-- Folding string concatenation from an arbitrary seed factors through the
empty seed. -/
theorem string_foldl_append (l : List String) (a : String) :
    l.foldl (fun r s => r ++ s) a = a ++ l.foldl (fun r s => r ++ s) "" := by
  induction l generalizing a with
  | nil => simp
  | cons x xs ih =>
      rw [List.foldl_cons, List.foldl_cons, ih (a ++ x), ih ("" ++ x)]
      simp [String.append_assoc]

/-- `String.join` peels its head element. -/
theorem string_join_cons (a : String) (l : List String) :
    String.join (a :: l) = a ++ String.join l := by
  unfold String.join
  rw [List.foldl_cons, string_foldl_append]
  simp

/-- `String.join` of the empty list. -/
theorem string_join_nil : String.join [] = "" := rfl

/-- The `dead2file` drain loop, characterised: some order-preserving portion
`taken` of the visible dead-letter messages is received; each received body is
appended to the file followed by a newline; the received messages move to the
in-flight (invisible, undeleted) set; the live queue is untouched. -/
theorem dead2fileLoop_spec (counts : Nat → Nat) :
    ∀ (fuel k : Nat) (s : DeadToFile.DFState),
    ∃ taken : List String,
      DeadToFile.dead2fileLoop counts fuel k s =
        { dlVisible := s.dlVisible.drop taken.length,
          dlInflight := s.dlInflight ++ taken,
          file := s.file ++ String.join (taken.map (fun b => b ++ "\n")),
          live := s.live }
      ∧ s.dlVisible = taken ++ s.dlVisible.drop taken.length := by
  intro fuel
  induction fuel with
  | zero =>
      intro k s
      refine ⟨[], ?_, by simp⟩
      simp only [List.length_nil, List.drop_zero, List.append_nil,
        List.map_nil, string_join_nil, String.append_empty]
      rfl
  | succ f ih =>
      intro k s
      obtain ⟨v, infl, fl, lv⟩ := s
      by_cases hc : counts k > 0
      · cases v with
        | nil =>
            refine ⟨[], ?_, by simp⟩
            simp [DeadToFile.dead2fileLoop, DeadToFile.getmessage, hc,
              string_join_nil]
        | cons m rest =>
            obtain ⟨taken, heq, hpre⟩ := ih (k + 1)
              ⟨rest, infl ++ [m], fl ++ m ++ "\n", lv⟩
            refine ⟨m :: taken, ?_, ?_⟩
            · rw [DeadToFile.dead2fileLoop, if_pos hc]
              show DeadToFile.dead2fileLoop counts f (k + 1)
                  ⟨rest, infl ++ [m], fl ++ m ++ "\n", lv⟩ = _
              rw [heq]
              simp [string_join_cons, String.append_assoc]
            · show m :: rest = (m :: taken) ++ (m :: rest).drop (taken.length + 1)
              simpa using hpre
      · exact ⟨[], by simp [DeadToFile.dead2fileLoop, hc, string_join_nil],
          by simp⟩

/-- C9: the drain-to-file tool appends each received message body to the
output file as exactly one newline-terminated line and leaves every
dead-letter message in place — it never sends to the live queue and never
deletes from the dead-letter queue, so the dead-letter queue's message set
(visible plus in-flight) after the drain is a permutation of the one
before. -/
theorem c9_dead_to_file_read_only (counts : Nat → Nat) (fuel : Nat)
    (s : DeadToFile.DFState) :
    ∃ taken : List String,
      DeadToFile.dead2file counts fuel s =
        { dlVisible := s.dlVisible.drop taken.length,
          dlInflight := s.dlInflight ++ taken,
          file := String.join (taken.map (fun b => b ++ "\n")),
          live := s.live }
      ∧ s.dlVisible = taken ++ s.dlVisible.drop taken.length
      ∧ ((DeadToFile.dead2file counts fuel s).dlVisible
            ++ (DeadToFile.dead2file counts fuel s).dlInflight).Perm
          (s.dlVisible ++ s.dlInflight) := by
  obtain ⟨taken, heq, hpre⟩ := dead2fileLoop_spec counts fuel 0 { s with file := "" }
  have hfull : DeadToFile.dead2file counts fuel s =
      { dlVisible := s.dlVisible.drop taken.length,
        dlInflight := s.dlInflight ++ taken,
        file := String.join (taken.map (fun b => b ++ "\n")),
        live := s.live } := by
    unfold DeadToFile.dead2file
    rw [heq]
    simp
  have hpre' : s.dlVisible = taken ++ s.dlVisible.drop taken.length := hpre
  refine ⟨taken, hfull, hpre', ?_⟩
  rw [hfull]
  show ((s.dlVisible.drop taken.length) ++ (s.dlInflight ++ taken)).Perm
    (s.dlVisible ++ s.dlInflight)
  conv_rhs => rw [hpre']
  refine List.perm_append_comm.trans ?_
  rw [List.append_assoc]
  exact List.perm_append_comm
